import Mathlib

/-!
Verification development for `get_sca_sia_policies_aws.py`.

The script is sequential glue: it loads a JSON secret from AWS Secrets
Manager, exchanges client credentials for a bearer token, performs two
HTTP GETs (SCA and SIA policy endpoints) and prints a formatted report.

The embedding below models:
* JSON values as returned by `json.loads` / `response.json()`; the JSON
  `null` also stands for the Python value `None` (which is exactly what
  `json.loads` produces for `null`, and what `dict.get` returns for a
  missing key);
* the Python operations the script uses on those values: `dict.get`
  (with and without a default), subscripting (`d[k]`, raising `KeyError`),
  iteration, `str()` formatting inside f-strings, `==` against the integer
  literal `1`, and `+` on the two declared totals;
* the external collaborators (secret store, token endpoint, policy
  endpoints) as an oracle structure `World`;
* `main` as a function from the environment and the world to the text
  printed on stdout, the trace of network calls issued, and an optional
  uncaught Python exception.

Printing is modeled by accumulating `line ++ "\n"` for each `print`.
A component that raises mid-way discards its own partial prints; no claim
below depends on the partial output of a failing component.

JSON objects are modeled as association lists with the first binding of a
key the visible one; objects produced by `json.loads` have distinct keys,
for which this coincides with Python dict lookup.

Integers: the script only ever manipulates JSON integers (status codes,
totals), so JSON numbers are embedded as `Int`.
-/

set_option autoImplicit false

namespace CyberArk

/-- JSON values as produced by `json.loads` and `response.json()`.
`null` doubles as the Python value `None`. -/
inductive Json where
  | null : Json
  | bool : Bool → Json
  | num : Int → Json
  | str : String → Json
  | arr : List Json → Json
  | obj : List (String × Json) → Json

/-- Lookup of a key in the association list of an object, first binding wins. -/
def jLookup (fs : List (String × Json)) (k : String) : Option Json :=
  (fs.find? (fun p => p.1 == k)).map (fun p => p.2)

/-- Python `d.get(k)`: `None` (here `Json.null`) when the key is missing;
`none` models the `AttributeError` raised when the receiver is not a dict. -/
def dictGet : Json → String → Option Json
  | .obj fs, k => some ((jLookup fs k).getD .null)
  | _, _ => none

/-- Python `d.get(k, default)`; `none` models `AttributeError` on a non-dict. -/
def dictGetD : Json → String → Json → Option Json
  | .obj fs, k, d => some ((jLookup fs k).getD d)
  | _, _, _ => none

/-- Python `d[k]` subscripting: `none` models the `KeyError` for a missing
key (or the `TypeError` of subscripting a non-dict with a string). -/
def jIndex : Json → String → Option Json
  | .obj fs, k => jLookup fs k
  | _, _ => none

/-- Python `for x in v`: lists yield their elements in order, strings yield
their characters as one-character strings, dicts yield their keys; other
values are not iterable (`TypeError`, modeled as `none`). -/
def pyIter : Json → Option (List Json)
  | .arr xs => some xs
  | .str s => some (s.data.map (fun c => .str (String.mk [c])))
  | .obj fs => some (fs.map (fun p => .str p.1))
  | _ => none

/-- Python `v == n` for an integer literal `n`: `True` and `False` compare
as 1 and 0 (bool is an int subclass); every non-numeric value compares
unequal. -/
def pyEqNum : Json → Int → Bool
  | .num m, n => m == n
  | .bool b, n => (if b then (1 : Int) else 0) == n
  | _, _ => false

/-- Numeric view used by Python `+`: ints are themselves, bools are 0/1. -/
def pyToIntQ : Json → Option Int
  | .num n => some n
  | .bool b => some (if b then 1 else 0)
  | _ => none

/-- Python `a + b` on JSON-derived values: numeric addition (bools count as
ints), string and list concatenation; anything else is a `TypeError`. -/
def pyAdd (a b : Json) : Option Json :=
  match pyToIntQ a, pyToIntQ b with
  | some m, some n => some (.num (m + n))
  | _, _ =>
    match a, b with
    | .str s, .str t => some (.str (s ++ t))
    | .arr xs, .arr ys => some (.arr (xs ++ ys))
    | _, _ => none

/-- Escaping of one character inside a Python string repr with quote `q`. -/
def pyEscapeChar (q : Char) (c : Char) : String :=
  if c = '\\' then "\\\\"
  else if c = q then "\\" ++ String.mk [q]
  else if c = '\n' then "\\n"
  else if c = '\t' then "\\t"
  else if c = '\r' then "\\r"
  else String.mk [c]

/-- Python `repr` of a string: single quotes unless the string holds a
single quote and no double quote. -/
def pyStrRepr (s : String) : String :=
  let q : Char := if s.contains '\x27' && !(s.contains '\x22') then '\x22' else '\x27'
  String.mk [q] ++ String.join (s.data.map (pyEscapeChar q)) ++ String.mk [q]

mutual

/-- Python `repr` of a JSON-derived value (used by `str()` on containers). -/
def pyRepr : Json → String
  | .null => "None"
  | .bool true => "True"
  | .bool false => "False"
  | .num n => toString n
  | .str s => pyStrRepr s
  | .arr xs => "[" ++ pyReprList xs ++ "]"
  | .obj fs => "\x7b" ++ pyReprObj fs ++ "\x7d"

/-- Comma-separated reprs of list elements. -/
def pyReprList : List Json → String
  | [] => ""
  | [x] => pyRepr x
  | x :: y :: xs => pyRepr x ++ ", " ++ pyReprList (y :: xs)

/-- Comma-separated `key: value` reprs of dict entries. -/
def pyReprObj : List (String × Json) → String
  | [] => ""
  | [(k, v)] => pyStrRepr k ++ ": " ++ pyRepr v
  | (k, v) :: y :: fs => pyStrRepr k ++ ": " ++ pyRepr v ++ ", " ++ pyReprObj (y :: fs)

end

/-- Python `str()` as used by f-string interpolation: strings verbatim,
`None` as "None", bools as "True"/"False", ints in decimal, containers via
`repr`. -/
def pyFmt : Json → String
  | .str s => s
  | v => pyRepr v

/-- One `print(s)` call: the argument followed by a newline. -/
def pr (s : String) : String := s ++ "\n"

/-- The separator `"=" * 60`. -/
def eq60 : String := String.mk (List.replicate 60 '=')

/-- Body of the `for policy in sca_data.get("hits", [])` loop of
`display_sca_policies`: the four printed lines for one SCA record, or
`none` when a field access raises (non-dict record). -/
def render_sca_policy (policy : Json) : Option String := do
  let name ← dictGet policy "name"
  let descr ← dictGet policy "description"
  let status ← dictGet policy "status"
  let pid ← dictGet policy "policyId"
  return pr ("\n  Name:        " ++ pyFmt name) ++
    pr ("  Description: " ++ pyFmt descr) ++
    pr ("  Status:      " ++ (if pyEqNum status 1 then "Active" else "Inactive")) ++
    pr ("  Policy ID:   " ++ pyFmt pid)

/-- The record loop of either display function: concatenation of the
rendered blocks in list order; a record that raises aborts the loop. -/
def render_records (f : Json → Option String) : List Json → Option String
  | [] => some ""
  | p :: ps => do
    let b ← f p
    let rest ← render_records f ps
    return b ++ rest

/-- `display_sca_policies(sca_data)`: header then one block per record of
`sca_data.get("hits", [])`, in wire order. -/
def display_sca_policies (sca_data : Json) : Option String := do
  let hitsVal ← dictGetD sca_data "hits" (.arr [])
  let hits ← pyIter hitsVal
  let body ← render_records render_sca_policy hits
  return pr ("\n" ++ eq60) ++ pr "SCA POLICIES (sca.cyberark.cloud)" ++ pr eq60 ++ body

/-- Body of the `for policy in sia_data.get("results", [])` loop of
`display_sia_policies`: all fields are read from the `metadata` container
(default empty dict), the status from the nested `metadata.status.status`. -/
def render_sia_policy (policy : Json) : Option String := do
  let metadata ← dictGetD policy "metadata" (.obj [])
  let name ← dictGet metadata "name"
  let descr ← dictGet metadata "description"
  let statusBox ← dictGetD metadata "status" (.obj [])
  let status ← dictGet statusBox "status"
  let pid ← dictGet metadata "policyId"
  return pr ("\n  Name:        " ++ pyFmt name) ++
    pr ("  Description: " ++ pyFmt descr) ++
    pr ("  Status:      " ++ pyFmt status) ++
    pr ("  Policy ID:   " ++ pyFmt pid)

/-- `display_sia_policies(sia_data)`: header then one block per record of
`sia_data.get("results", [])`, in wire order. -/
def display_sia_policies (sia_data : Json) : Option String := do
  let resultsVal ← dictGetD sia_data "results" (.arr [])
  let results ← pyIter resultsVal
  let body ← render_records render_sia_policy results
  return pr ("\n" ++ eq60) ++ pr "SIA POLICIES (uap.cyberark.cloud)" ++ pr eq60 ++ body

/-- Uncaught Python exceptions the script can die with. -/
inductive PyErr where
  | keyError : String → PyErr
  | attrError : PyErr
  | typeError : PyErr
  | httpError : Nat → PyErr
  | botoError : String → PyErr
deriving DecidableEq

/-- An HTTP response as seen through `requests`: the status code and the
already-parsed JSON body (`response.json()`). -/
structure HttpResponse where
  status : Nat
  body : Json

/-- One outgoing network call of a run. -/
inductive Call where
  | secretsManagerGet : String → String → Call
  | httpPost : String → List (String × String) → Call
  | httpGetCall : String → List (String × String) → Call

/-- Is the call an HTTP GET (the only way the script reaches the SCA or
SIA policy endpoints)? -/
def Call.isHttpGetCall : Call → Bool
  | .httpGetCall _ _ => true
  | _ => false

/-- The external collaborators, as a deterministic oracle for one run.
`getSecretValue region secretId` abstracts the Secrets Manager read
together with `json.loads` of its `SecretString` (both library code
outside this script): it yields the parsed payload or a store error. -/
structure World where
  getSecretValue : String → String → Except String Json
  post : String → List (String × String) → HttpResponse
  httpGet : String → List (String × String) → HttpResponse

/-- `response.raise_for_status()` raises exactly for status codes in
[400, 600). -/
def is_http_error (s : Nat) : Bool := decide (400 ≤ s) && decide (s < 600)

/-- `get_secret()`: one Secrets Manager read, payload parsed from JSON. -/
def get_secret (w : World) (region secretName : String) :
    List Call × Except PyErr Json :=
  match w.getSecretValue region secretName with
  | .error msg => ([.secretsManagerGet region secretName], .error (.botoError msg))
  | .ok payload => ([.secretsManagerGet region secretName], .ok payload)

/-- `get_token(secret)`: the three subscripts of `secret` are evaluated in
source order (each may raise `KeyError` before any request is made), then
one POST to the platform token endpoint; non-success status raises
`HTTPError`, and a success body without `access_token` raises `KeyError`. -/
def get_token (w : World) (secret : Json) : List Call × Except PyErr Json :=
  match jIndex secret "identity_tenant_id" with
  | none => ([], .error (.keyError "identity_tenant_id"))
  | some tid =>
    match jIndex secret "client_id" with
    | none => ([], .error (.keyError "client_id"))
    | some cid =>
      match jIndex secret "client_secret" with
      | none => ([], .error (.keyError "client_secret"))
      | some csec =>
        let url := "https://" ++ pyFmt tid ++ ".id.cyberark.cloud/oauth2/platformtoken"
        let formData := [("grant_type", "client_credentials"),
          ("client_id", pyFmt cid), ("client_secret", pyFmt csec)]
        let r := w.post url formData
        ([.httpPost url formData],
          if is_http_error r.status then .error (.httpError r.status)
          else
            match jIndex r.body "access_token" with
            | none => .error (.keyError "access_token")
            | some tok => .ok tok)

/-- `get_sca_policies(subdomain, token)`: one GET with the bearer header. -/
def get_sca_policies (w : World) (subdomain token : Json) :
    List Call × Except PyErr Json :=
  let url := "https://" ++ pyFmt subdomain ++ ".sca.cyberark.cloud/api/policies"
  let headers := [("Authorization", "Bearer " ++ pyFmt token)]
  let r := w.httpGet url headers
  ([.httpGetCall url headers],
    if is_http_error r.status then .error (.httpError r.status) else .ok r.body)

/-- `get_sia_policies(subdomain, token)`: one GET with the bearer header. -/
def get_sia_policies (w : World) (subdomain token : Json) :
    List Call × Except PyErr Json :=
  let url := "https://" ++ pyFmt subdomain ++ ".uap.cyberark.cloud/api/policies"
  let headers := [("Authorization", "Bearer " ++ pyFmt token)]
  let r := w.httpGet url headers
  ([.httpGetCall url headers],
    if is_http_error r.status then .error (.httpError r.status) else .ok r.body)

/-- The summary lines 125-129 of `main`: the two declared totals (default
0), added with Python `+`, printed in the aggregate line. -/
def summary_section (sca_data sia_data : Json) : Except PyErr String :=
  match dictGetD sca_data "total" (.num 0) with
  | none => .error .attrError
  | some sca_total =>
    match dictGetD sia_data "total" (.num 0) with
    | none => .error .attrError
    | some sia_total =>
      match pyAdd sca_total sia_total with
      | none => .error .typeError
      | some s =>
        .ok (pr ("\n" ++ eq60) ++
          pr ("TOTAL: " ++ pyFmt sca_total ++ " SCA + " ++ pyFmt sia_total ++
            " SIA = " ++ pyFmt s ++ " policies") ++
          pr eq60)

/-- Process environment: `os.getenv` for the two configuration settings. -/
structure Env where
  aws_secret_name : Option String
  aws_region : Option String

/-- Module-level `SECRET_NAME = os.getenv("AWS_SECRET_NAME")`. -/
def SECRET_NAME (env : Env) : Option String := env.aws_secret_name

/-- Module-level `REGION = os.getenv("AWS_REGION", "us-east-2")`. -/
def REGION (env : Env) : String := env.aws_region.getD "us-east-2"

/-- Outcome of one run: everything printed to stdout, the network calls
issued, and the uncaught exception if the run aborted. -/
structure MainResult where
  output : String
  calls : List Call
  err : Option PyErr

/-- The banner printed by the first three lines of `main`. -/
def banner : String :=
  pr eq60 ++ pr "CyberArk SCA & SIA Policy Retriever (AWS Secrets Manager)" ++ pr eq60

/-- The configuration-error message printed when `SECRET_NAME` is falsy. -/
def missing_name_msg : String :=
  pr "\n[ERROR] Missing AWS_SECRET_NAME environment variable." ++
  pr "Set AWS_SECRET_NAME in your .env file or environment." ++
  pr "See .env.example for reference."

/-- `main()`: the whole run. `if not SECRET_NAME` is Python falsiness on an
optional string: unset or empty. `secret["subdomain"]` is evaluated twice,
at lines 112 and 117, exactly as in the source. -/
def main (env : Env) (w : World) : MainResult :=
  let o0 := banner
  if (SECRET_NAME env).getD "" = "" then
    { output := o0 ++ missing_name_msg, calls := [], err := none }
  else
    let nm := (SECRET_NAME env).getD ""
    let o1 := o0 ++ pr "\n[1/4] Retrieving credentials from AWS Secrets Manager..."
    match get_secret w (REGION env) nm with
    | (cs, .error e) => { output := o1, calls := cs, err := some e }
    | (cs, .ok secret) =>
      let o2 := o1 ++ pr "      ✓ Credentials retrieved" ++
        pr "[2/4] Authenticating via OAuth 2.0..."
      match get_token w secret with
      | (ct, .error e) => { output := o2, calls := cs ++ ct, err := some e }
      | (ct, .ok token) =>
        let o3 := o2 ++ pr "      ✓ Bearer token acquired" ++
          pr "[3/4] Retrieving SCA policies..."
        match jIndex secret "subdomain" with
        | none => { output := o3, calls := cs ++ ct, err := some (.keyError "subdomain") }
        | some sub1 =>
          match get_sca_policies w sub1 token with
          | (ca, .error e) => { output := o3, calls := cs ++ ct ++ ca, err := some e }
          | (ca, .ok sca_data) =>
            let o4 := o3 ++ pr "      ✓ Done" ++ pr "[4/4] Retrieving SIA policies..."
            match jIndex secret "subdomain" with
            | none =>
              { output := o4, calls := cs ++ ct ++ ca, err := some (.keyError "subdomain") }
            | some sub2 =>
              match get_sia_policies w sub2 token with
              | (cb, .error e) =>
                { output := o4, calls := cs ++ ct ++ ca ++ cb, err := some e }
              | (cb, .ok sia_data) =>
                let o5 := o4 ++ pr "      ✓ Done"
                let allCalls := cs ++ ct ++ ca ++ cb
                match display_sca_policies sca_data with
                | none => { output := o5, calls := allCalls, err := some .attrError }
                | some dsca =>
                  match display_sia_policies sia_data with
                  | none =>
                    { output := o5 ++ dsca, calls := allCalls, err := some .attrError }
                  | some dsia =>
                    match summary_section sca_data sia_data with
                    | .error e =>
                      { output := o5 ++ dsca ++ dsia, calls := allCalls, err := some e }
                    | .ok t =>
                      { output := o5 ++ dsca ++ dsia ++ t, calls := allCalls, err := none }

/-- Status text as the specification words it, amended minimally: the spec
maps the binary code 1 to "Active" and anything else to "Inactive"; the
implementation compares with Python `==`, under which the boolean `true`
also counts as 1, so `true` must map to "Active" as well. -/
def spec_sca_status : Json → String
  | .num n => if n = 1 then "Active" else "Inactive"
  | .bool b => if b then "Active" else "Inactive"
  | _ => "Inactive"

/-! Concrete example inputs used to exercise the theorems. -/

/-- A fully populated secret payload. -/
def secretEx : Json := .obj
  [("identity_tenant_id", .str "acme"), ("client_id", .str "svc"),
   ("client_secret", .str "pw"), ("subdomain", .str "corp")]

/-- A valid JSON secret payload that lacks the `subdomain` field. -/
def secretNoSub : Json := .obj
  [("identity_tenant_id", .str "acme"), ("client_id", .str "svc"),
   ("client_secret", .str "pw")]

/-- The SCA record of the round-trip example in the specification. -/
def scaRecEx : Json := .obj
  [("name", .str "A"), ("description", .str "d"), ("status", .num 1),
   ("policyId", .str "p1")]

/-- The SCA response of the round-trip example. -/
def scaBodyEx : Json := .obj [("hits", .arr [scaRecEx]), ("total", .num 1)]

/-- The empty SIA response of the round-trip example. -/
def siaBodyEx : Json := .obj [("results", .arr []), ("total", .num 0)]

/-- The token URL the script derives from `secretEx`. -/
def tokenUrlEx : String := "https://acme.id.cyberark.cloud/oauth2/platformtoken"

/-- The form body the script posts for `secretEx`. -/
def tokenFormEx : List (String × String) :=
  [("grant_type", "client_credentials"), ("client_id", "svc"), ("client_secret", "pw")]

/-- The SCA policies URL the script derives from `secretEx`. -/
def scaUrlEx : String := "https://corp.sca.cyberark.cloud/api/policies"

/-- The SIA policies URL the script derives from `secretEx`. -/
def siaUrlEx : String := "https://corp.uap.cyberark.cloud/api/policies"

/-- Remote policy data keyed only by URL (the same for every request,
whatever the headers). -/
def gEx : String → HttpResponse := fun u =>
  if u = scaUrlEx then { status := 200, body := scaBodyEx }
  else if u = siaUrlEx then { status := 200, body := siaBodyEx }
  else { status := 404, body := .null }

/-- An environment with the secret name configured. -/
def envEx : Env := { aws_secret_name := some "cyberark-creds", aws_region := none }

/-- An environment with no secret name configured. -/
def envNoNameEx : Env := { aws_secret_name := none, aws_region := none }

/-- A healthy world, parameterized by the bearer token the identity
endpoint hands out. -/
def wEx (tok : String) : World where
  getSecretValue := fun _ _ => .ok secretEx
  post := fun _ _ => { status := 200, body := .obj [("access_token", .str tok)] }
  httpGet := fun u _ => gEx u

/-- A world whose token endpoint rejects the credentials with 401. -/
def wAuthFailEx : World where
  getSecretValue := fun _ _ => .ok secretEx
  post := fun _ _ => { status := 401, body := .str "unauthorized" }
  httpGet := fun u _ => gEx u

/-- A world whose token endpoint answers 200 without an `access_token`. -/
def wNoTokenEx : World where
  getSecretValue := fun _ _ => .ok secretEx
  post := fun _ _ => { status := 200, body := .obj [("expires_in", .num 3600)] }
  httpGet := fun u _ => gEx u

/-- A healthy world whose stored secret lacks `subdomain`. -/
def wNoSubEx : World where
  getSecretValue := fun _ _ => .ok secretNoSub
  post := fun _ _ => { status := 200, body := .obj [("access_token", .str "tok")] }
  httpGet := fun u _ => gEx u

/-! Helper lemmas. -/

/-- Unfolding of the SCA record renderer on a dict record: every field is
read with `dict.get`, defaulting to `None`. -/
theorem render_sca_policy_obj (fs : List (String × Json)) :
    render_sca_policy (.obj fs) =
      some (pr ("\n  Name:        " ++ pyFmt ((jLookup fs "name").getD .null)) ++
        pr ("  Description: " ++ pyFmt ((jLookup fs "description").getD .null)) ++
        pr ("  Status:      " ++
          (if pyEqNum ((jLookup fs "status").getD .null) 1 then "Active" else "Inactive")) ++
        pr ("  Policy ID:   " ++ pyFmt ((jLookup fs "policyId").getD .null))) := rfl

/-- The conditional of line 71 agrees with the amended specification text
on every JSON value. -/
theorem status_if_eq_spec (v : Json) :
    (if pyEqNum v 1 then "Active" else "Inactive") = spec_sca_status v := by
  cases v with
  | null => rfl
  | bool b => cases b <;> rfl
  | num n => by_cases h : n = 1 <;> simp [pyEqNum, spec_sca_status, h]
  | str s => rfl
  | arr xs => rfl
  | obj fs => rfl

/-- The record loop succeeds when every record renders. -/
theorem render_records_isSome (f : Json → Option String) :
    ∀ l : List Json, (∀ a ∈ l, (f a).isSome = true) →
      ∃ s, render_records f l = some s := by
  intro l h
  induction l with
  | nil => exact ⟨"", rfl⟩
  | cons a l ih =>
    obtain ⟨b, hb⟩ := Option.isSome_iff_exists.mp (h a (by simp))
    obtain ⟨s, hs⟩ := ih (fun x hx => h x (by simp [hx]))
    exact ⟨b ++ s, by simp [render_records, hb, hs]⟩

/-- The record loop output is the blocks of the records, concatenated in
list order. -/
theorem render_records_join (f : Json → Option String) :
    ∀ (ps : List Json) (bs : List String),
      List.Forall₂ (fun p b => f p = some b) ps bs →
      render_records f ps = some (bs.foldr (fun b r => b ++ r) "") := by
  intro ps bs h
  induction h with
  | nil => rfl
  | cons hpb _ ih => simp [render_records, hpb, ih]

/-! Claims. -/

/-- C2 counterexample: a record whose status field holds the JSON boolean
`true` — a value different from the number 1 — nevertheless renders
"Active", because the `==` of the implementation language equates `True`
with 1. -/
theorem sca_status_nonone_counterexample :
    render_sca_policy (Json.obj [("status", Json.bool true)]) =
      some (pr "\n  Name:        None" ++ pr "  Description: None" ++
        pr "  Status:      Active" ++ pr "  Policy ID:   None") ∧
    Json.bool true ≠ Json.num 1 :=
  ⟨rfl, fun h => Json.noConfusion h⟩

/-- C2 (amended): a rendered SCA record maps its status field through the
binary code: the integer 1 — or a boolean true, which the language equality
of the implementation treats as 1 — renders as "Active"; anything else,
including an absent field or 0, renders as "Inactive". -/
theorem sca_status_binary_mapping (fs : List (String × Json)) :
    render_sca_policy (Json.obj fs) =
      some (pr ("\n  Name:        " ++ pyFmt ((jLookup fs "name").getD .null)) ++
        pr ("  Description: " ++ pyFmt ((jLookup fs "description").getD .null)) ++
        pr ("  Status:      " ++ spec_sca_status ((jLookup fs "status").getD .null)) ++
        pr ("  Policy ID:   " ++ pyFmt ((jLookup fs "policyId").getD .null))) := by
  rw [render_sca_policy_obj, status_if_eq_spec]

/-- C3: the displayed SIA status is read verbatim from the nested path
`metadata.status.status` and printed through plain `str()` with no
remapping; in particular a string status prints as that very string. -/
theorem sia_status_verbatim (pfs ms ss : List (String × Json)) (v : Json)
    (hm : jLookup pfs "metadata" = some (.obj ms))
    (hs : jLookup ms "status" = some (.obj ss))
    (hv : jLookup ss "status" = some v) :
    render_sia_policy (.obj pfs) =
      some (pr ("\n  Name:        " ++ pyFmt ((jLookup ms "name").getD .null)) ++
        pr ("  Description: " ++ pyFmt ((jLookup ms "description").getD .null)) ++
        pr ("  Status:      " ++ pyFmt v) ++
        pr ("  Policy ID:   " ++ pyFmt ((jLookup ms "policyId").getD .null))) ∧
    (∀ s : String, v = .str s → pyFmt v = s) := by
  constructor
  · simp [render_sia_policy, dictGetD, dictGet, hm, hs, hv]
  · rintro s rfl
    rfl

/-- C3 witness: a concrete SIA record whose nested status is the free-form
string "Draft" renders exactly "Draft". -/
theorem sia_status_verbatim_witness :
    render_sia_policy (.obj [("metadata", .obj [("status", .obj [("status", .str "Draft")])])]) =
      some (pr "\n  Name:        None" ++ pr "  Description: None" ++
        pr "  Status:      Draft" ++ pr "  Policy ID:   None") :=
  (sia_status_verbatim [("metadata", .obj [("status", .obj [("status", .str "Draft")])])]
    [("status", .obj [("status", .str "Draft")])] [("status", .str "Draft")]
    (.str "Draft") rfl rfl rfl).1

/-- C7: both display paths are lenient. Any list of dict SCA records — with
any fields absent — displays without failing; SIA records that individually
render also display without failing; a fieldless SCA record renders with
the placeholder "None" everywhere (and "Inactive", the placeholder status);
an SIA record without a `metadata` container renders "None" for all four
fields. -/
theorem lenient_missing_fields :
    (∀ ps : List (List (String × Json)),
      (display_sca_policies (.obj [("hits", .arr (ps.map Json.obj))])).isSome = true) ∧
    (∀ rs : List Json, (∀ p ∈ rs, (render_sia_policy p).isSome = true) →
      (display_sia_policies (.obj [("results", .arr rs)])).isSome = true) ∧
    render_sca_policy (.obj []) =
      some (pr "\n  Name:        None" ++ pr "  Description: None" ++
        pr "  Status:      Inactive" ++ pr "  Policy ID:   None") ∧
    (∀ pfs : List (String × Json), jLookup pfs "metadata" = none →
      render_sia_policy (.obj pfs) =
        some (pr "\n  Name:        None" ++ pr "  Description: None" ++
          pr "  Status:      None" ++ pr "  Policy ID:   None")) := by
  refine ⟨?_, ?_, rfl, ?_⟩
  · intro ps
    have hall : ∀ a ∈ ps.map Json.obj, (render_sca_policy a).isSome = true := by
      intro a ha
      obtain ⟨p, _, rfl⟩ := List.mem_map.mp ha
      rw [render_sca_policy_obj]
      rfl
    obtain ⟨s, hs⟩ := render_records_isSome _ _ hall
    have hh : dictGetD (.obj [("hits", .arr (ps.map Json.obj))]) "hits" (.arr []) =
        some (.arr (ps.map Json.obj)) := rfl
    simp [display_sca_policies, hh, pyIter, hs]
  · intro rs hrs
    obtain ⟨s, hs⟩ := render_records_isSome _ _ hrs
    have hh : dictGetD (.obj [("results", .arr rs)]) "results" (.arr []) =
        some (.arr rs) := rfl
    simp [display_sia_policies, hh, pyIter, hs]
  · intro pfs h
    have hmd : dictGetD (Json.obj pfs) "metadata" (.obj []) = some (.obj []) := by
      simp [dictGetD, h]
    simp only [render_sia_policy, hmd, Option.bind_eq_bind, Option.some_bind]
    rfl

/-- C7 witness: one fieldless record in each collection displays fine, and
an SIA record without metadata renders all placeholders. -/
theorem lenient_missing_fields_witness :
    (display_sca_policies (.obj [("hits", .arr [.obj []])])).isSome = true ∧
    (display_sia_policies (.obj [("results", .arr [.obj []])])).isSome = true ∧
    render_sia_policy (.obj [("name", .str "ignored")]) =
      some (pr "\n  Name:        None" ++ pr "  Description: None" ++
        pr "  Status:      None" ++ pr "  Policy ID:   None") :=
  ⟨lenient_missing_fields.1 [[]],
   lenient_missing_fields.2.1 [.obj []] (by
     intro p hp
     rw [List.mem_singleton.mp hp]
     rfl),
   lenient_missing_fields.2.2.2 [("name", .str "ignored")] rfl⟩

/-- C1: the aggregate line is `TOTAL: <sca_total> SCA + <sia_total> SIA =
<sum> policies`, where the two totals are the declared `total` fields of
the responses (0 when absent) and the sum is their integer sum; the line
depends only on the declared totals, never on the `hits` or `results`
collections (the field lists `fs` and `gs` are otherwise arbitrary). -/
theorem summary_total_line (fs gs : List (String × Json)) (a b : Int)
    (ha : (jLookup fs "total").getD (.num 0) = Json.num a)
    (hb : (jLookup gs "total").getD (.num 0) = Json.num b) :
    summary_section (.obj fs) (.obj gs) =
      .ok (pr ("\n" ++ eq60) ++
        pr ("TOTAL: " ++ toString a ++ " SCA + " ++ toString b ++ " SIA = " ++
          toString (a + b) ++ " policies") ++
        pr eq60) := by
  simp [summary_section, dictGetD, ha, hb, pyAdd, pyToIntQ, pyFmt, pyRepr]

/-- C1 witness: the round-trip example of the specification; the summary
line ends `1 SCA + 0 SIA = 1 policies`. -/
theorem summary_total_line_witness :
    summary_section scaBodyEx siaBodyEx =
      .ok (pr ("\n" ++ eq60) ++ pr "TOTAL: 1 SCA + 0 SIA = 1 policies" ++ pr eq60) :=
  summary_total_line [("hits", .arr [scaRecEx]), ("total", .num 1)]
    [("results", .arr []), ("total", .num 0)] 1 0 rfl rfl

/-- C4: with no secret identifier configured (unset or empty), `main`
prints the configuration error message after the banner, issues no network
call of any kind, and ends without an uncaught exception. -/
theorem config_error_no_calls (env : Env) (w : World)
    (h : (SECRET_NAME env).getD "" = "") :
    main env w = { output := banner ++ missing_name_msg, calls := [], err := none } := by
  simp [main, h]

/-- C4 witness: an unset `AWS_SECRET_NAME` against an arbitrary world. -/
theorem config_error_no_calls_witness :
    main envNoNameEx wAuthFailEx =
      { output := banner ++ missing_name_msg, calls := [], err := none } :=
  config_error_no_calls envNoNameEx wAuthFailEx rfl

/-- C5: when the token endpoint answers the POST with a non-success status,
the run dies with that HTTP error; the only calls of the whole run are the
secret read and the token POST — no HTTP GET, hence neither policy
endpoint, is ever reached. -/
theorem auth_failure_no_fetch (env : Env) (w : World) (secret tid cid csec : Json)
    (hname : ¬ (SECRET_NAME env).getD "" = "")
    (hsec : w.getSecretValue (REGION env) ((SECRET_NAME env).getD "") = .ok secret)
    (htid : jIndex secret "identity_tenant_id" = some tid)
    (hcid : jIndex secret "client_id" = some cid)
    (hcsec : jIndex secret "client_secret" = some csec)
    (hfail : is_http_error
      (w.post ("https://" ++ pyFmt tid ++ ".id.cyberark.cloud/oauth2/platformtoken")
        [("grant_type", "client_credentials"), ("client_id", pyFmt cid),
         ("client_secret", pyFmt csec)]).status = true) :
    (main env w).err = some (.httpError
      (w.post ("https://" ++ pyFmt tid ++ ".id.cyberark.cloud/oauth2/platformtoken")
        [("grant_type", "client_credentials"), ("client_id", pyFmt cid),
         ("client_secret", pyFmt csec)]).status) ∧
    (main env w).calls =
      [.secretsManagerGet (REGION env) ((SECRET_NAME env).getD ""),
       .httpPost ("https://" ++ pyFmt tid ++ ".id.cyberark.cloud/oauth2/platformtoken")
         [("grant_type", "client_credentials"), ("client_id", pyFmt cid),
          ("client_secret", pyFmt csec)]] ∧
    ∀ c ∈ (main env w).calls, c.isHttpGetCall = false := by
  refine ⟨?_, ?_, ?_⟩ <;>
    simp [main, hname, get_secret, hsec, get_token, htid, hcid, hcsec, hfail,
      Call.isHttpGetCall]

/-- C5 witness: the 401-answering world; the run dies with the 401 and its
trace holds no GET. -/
theorem auth_failure_no_fetch_witness :
    (main envEx wAuthFailEx).err = some (.httpError 401) ∧
    ∀ c ∈ (main envEx wAuthFailEx).calls, c.isHttpGetCall = false := by
  have T := auth_failure_no_fetch envEx wAuthFailEx secretEx (.str "acme") (.str "svc")
    (.str "pw") (by decide) rfl rfl rfl rfl rfl
  exact ⟨T.1, T.2.2⟩

/-- C6: a valid secret payload that lacks `subdomain` carries the run
through secret retrieval and token acquisition (their success lines are
printed, ending with the step-3 fetch announcement); the run then dies
with the `KeyError` naming `subdomain`, before any policy GET is issued. -/
theorem missing_subdomain_fails_at_fetch (env : Env) (w : World)
    (secret tid cid csec tok : Json)
    (hname : ¬ (SECRET_NAME env).getD "" = "")
    (hsec : w.getSecretValue (REGION env) ((SECRET_NAME env).getD "") = .ok secret)
    (htid : jIndex secret "identity_tenant_id" = some tid)
    (hcid : jIndex secret "client_id" = some cid)
    (hcsec : jIndex secret "client_secret" = some csec)
    (hok : is_http_error
      (w.post ("https://" ++ pyFmt tid ++ ".id.cyberark.cloud/oauth2/platformtoken")
        [("grant_type", "client_credentials"), ("client_id", pyFmt cid),
         ("client_secret", pyFmt csec)]).status = false)
    (htok : jIndex
      (w.post ("https://" ++ pyFmt tid ++ ".id.cyberark.cloud/oauth2/platformtoken")
        [("grant_type", "client_credentials"), ("client_id", pyFmt cid),
         ("client_secret", pyFmt csec)]).body "access_token" = some tok)
    (hnosub : jIndex secret "subdomain" = none) :
    (main env w).err = some (.keyError "subdomain") ∧
    (main env w).output = banner ++
      pr "\n[1/4] Retrieving credentials from AWS Secrets Manager..." ++
      pr "      ✓ Credentials retrieved" ++
      pr "[2/4] Authenticating via OAuth 2.0..." ++
      pr "      ✓ Bearer token acquired" ++
      pr "[3/4] Retrieving SCA policies..." ∧
    ∀ c ∈ (main env w).calls, c.isHttpGetCall = false := by
  refine ⟨?_, ?_, ?_⟩ <;>
    simp [main, hname, get_secret, hsec, get_token, htid, hcid, hcsec, hok, htok,
      hnosub, Call.isHttpGetCall]

/-- C6 witness: the world whose stored secret lacks `subdomain`. -/
theorem missing_subdomain_fails_at_fetch_witness :
    (main envEx wNoSubEx).err = some (.keyError "subdomain") ∧
    ∀ c ∈ (main envEx wNoSubEx).calls, c.isHttpGetCall = false := by
  have T := missing_subdomain_fails_at_fetch envEx wNoSubEx secretNoSub (.str "acme")
    (.str "svc") (.str "pw") (.str "tok") (by decide) rfl rfl rfl rfl rfl rfl rfl
  exact ⟨T.1, T.2.2⟩

/-- C8: a success answer from the token endpoint whose JSON body lacks
`access_token` makes `get_token` fail with the `KeyError` naming
`access_token` instead of returning a token. -/
theorem token_missing_access_token (w : World) (secret tid cid csec : Json)
    (htid : jIndex secret "identity_tenant_id" = some tid)
    (hcid : jIndex secret "client_id" = some cid)
    (hcsec : jIndex secret "client_secret" = some csec)
    (hok : is_http_error
      (w.post ("https://" ++ pyFmt tid ++ ".id.cyberark.cloud/oauth2/platformtoken")
        [("grant_type", "client_credentials"), ("client_id", pyFmt cid),
         ("client_secret", pyFmt csec)]).status = false)
    (hmiss : jIndex
      (w.post ("https://" ++ pyFmt tid ++ ".id.cyberark.cloud/oauth2/platformtoken")
        [("grant_type", "client_credentials"), ("client_id", pyFmt cid),
         ("client_secret", pyFmt csec)]).body "access_token" = none) :
    (get_token w secret).2 = .error (.keyError "access_token") := by
  simp [get_token, htid, hcid, hcsec, hok, hmiss]

/-- C8 witness: a 200 token response carrying only `expires_in`. -/
theorem token_missing_access_token_witness :
    (get_token wNoTokenEx secretEx).2 = .error (.keyError "access_token") :=
  token_missing_access_token wNoTokenEx secretEx (.str "acme") (.str "svc") (.str "pw")
    rfl rfl rfl (by decide) rfl

/-- A successful run prints the step log, then the SCA section, then the
SIA section, then the summary, and ends without an exception. Helper
shared by the ordering claims. -/
theorem main_success_output (env : Env) (w : World) (secret tok sub sca_data sia_data : Json)
    (dsca dsia t : String)
    (hname : ¬ (SECRET_NAME env).getD "" = "")
    (hsec : w.getSecretValue (REGION env) ((SECRET_NAME env).getD "") = .ok secret)
    (htok : (get_token w secret).2 = .ok tok)
    (hsub : jIndex secret "subdomain" = some sub)
    (hsca : (get_sca_policies w sub tok).2 = .ok sca_data)
    (hsia : (get_sia_policies w sub tok).2 = .ok sia_data)
    (hdsca : display_sca_policies sca_data = some dsca)
    (hdsia : display_sia_policies sia_data = some dsia)
    (ht : summary_section sca_data sia_data = .ok t) :
    (main env w).output = banner ++
      pr "\n[1/4] Retrieving credentials from AWS Secrets Manager..." ++
      pr "      ✓ Credentials retrieved" ++
      pr "[2/4] Authenticating via OAuth 2.0..." ++
      pr "      ✓ Bearer token acquired" ++
      pr "[3/4] Retrieving SCA policies..." ++
      pr "      ✓ Done" ++
      pr "[4/4] Retrieving SIA policies..." ++
      pr "      ✓ Done" ++
      dsca ++ dsia ++ t ∧
    (main env w).err = none := by
  rcases hgt : get_token w secret with ⟨ct, rt⟩
  rw [hgt] at htok
  simp only at htok
  subst htok
  rcases hga : get_sca_policies w sub tok with ⟨ca, ra⟩
  rw [hga] at hsca
  simp only at hsca
  subst hsca
  rcases hgb : get_sia_policies w sub tok with ⟨cb, rb⟩
  rw [hgb] at hsia
  simp only at hsia
  subst hsia
  constructor <;>
    simp [main, hname, get_secret, hsec, hgt, hsub, hga, hgb, hdsca, hdsia, ht]

/-- C10: the reporter preserves wire order and section order. A `hits`
sequence whose records render to blocks `bs` displays as the SCA header
followed by exactly those blocks concatenated in sequence order; likewise
for `results` and the SIA header; and in a successful run the complete SCA
section is printed before the SIA section (followed by the summary). -/
theorem report_wire_order :
    (∀ (fs : List (String × Json)) (ps : List Json) (bs : List String),
      jLookup fs "hits" = some (.arr ps) →
      List.Forall₂ (fun p b => render_sca_policy p = some b) ps bs →
      display_sca_policies (.obj fs) =
        some (pr ("\n" ++ eq60) ++ pr "SCA POLICIES (sca.cyberark.cloud)" ++ pr eq60 ++
          bs.foldr (fun b r => b ++ r) "")) ∧
    (∀ (gs : List (String × Json)) (qs : List Json) (ds : List String),
      jLookup gs "results" = some (.arr qs) →
      List.Forall₂ (fun q d => render_sia_policy q = some d) qs ds →
      display_sia_policies (.obj gs) =
        some (pr ("\n" ++ eq60) ++ pr "SIA POLICIES (uap.cyberark.cloud)" ++ pr eq60 ++
          ds.foldr (fun d r => d ++ r) "")) ∧
    (∀ (env : Env) (w : World) (secret tok sub sca_data sia_data : Json)
      (dsca dsia t : String),
      ¬ (SECRET_NAME env).getD "" = "" →
      w.getSecretValue (REGION env) ((SECRET_NAME env).getD "") = .ok secret →
      (get_token w secret).2 = .ok tok →
      jIndex secret "subdomain" = some sub →
      (get_sca_policies w sub tok).2 = .ok sca_data →
      (get_sia_policies w sub tok).2 = .ok sia_data →
      display_sca_policies sca_data = some dsca →
      display_sia_policies sia_data = some dsia →
      summary_section sca_data sia_data = .ok t →
      (main env w).output = banner ++
        pr "\n[1/4] Retrieving credentials from AWS Secrets Manager..." ++
        pr "      ✓ Credentials retrieved" ++
        pr "[2/4] Authenticating via OAuth 2.0..." ++
        pr "      ✓ Bearer token acquired" ++
        pr "[3/4] Retrieving SCA policies..." ++
        pr "      ✓ Done" ++
        pr "[4/4] Retrieving SIA policies..." ++
        pr "      ✓ Done" ++
        dsca ++ dsia ++ t) := by
  refine ⟨?_, ?_, ?_⟩
  · intro fs ps bs h1 h2
    have hh : dictGetD (.obj fs) "hits" (.arr []) = some (.arr ps) := by
      simp [dictGetD, h1]
    simp [display_sca_policies, hh, pyIter, render_records_join _ _ _ h2]
  · intro gs qs ds h1 h2
    have hh : dictGetD (.obj gs) "results" (.arr []) = some (.arr qs) := by
      simp [dictGetD, h1]
    simp [display_sia_policies, hh, pyIter, render_records_join _ _ _ h2]
  · intro env w secret tok sub sca_data sia_data dsca dsia t h1 h2 h3 h4 h5 h6 h7 h8 h9
    exact (main_success_output env w secret tok sub sca_data sia_data dsca dsia t
      h1 h2 h3 h4 h5 h6 h7 h8 h9).1

set_option maxRecDepth 8192

/-- C10 witness: two SCA records display in wire order, and a full happy
run prints the SCA section before the SIA section before the summary. -/
theorem report_wire_order_witness :
    display_sca_policies
      (.obj [("hits", .arr [.obj [("name", .str "first")], .obj [("name", .str "second")]])]) =
      some (pr ("\n" ++ eq60) ++ pr "SCA POLICIES (sca.cyberark.cloud)" ++ pr eq60 ++
        ("\n  Name:        first\n  Description: None\n  Status:      Inactive\n  Policy ID:   None\n" ++
          ("\n  Name:        second\n  Description: None\n  Status:      Inactive\n  Policy ID:   None\n" ++
            ""))) ∧
    (main envEx (wEx "TOK")).output = banner ++
      pr "\n[1/4] Retrieving credentials from AWS Secrets Manager..." ++
      pr "      ✓ Credentials retrieved" ++
      pr "[2/4] Authenticating via OAuth 2.0..." ++
      pr "      ✓ Bearer token acquired" ++
      pr "[3/4] Retrieving SCA policies..." ++
      pr "      ✓ Done" ++
      pr "[4/4] Retrieving SIA policies..." ++
      pr "      ✓ Done" ++
      (pr ("\n" ++ eq60) ++ pr "SCA POLICIES (sca.cyberark.cloud)" ++ pr eq60 ++
        "\n  Name:        A\n  Description: d\n  Status:      Active\n  Policy ID:   p1\n") ++
      (pr ("\n" ++ eq60) ++ pr "SIA POLICIES (uap.cyberark.cloud)" ++ pr eq60 ++ "") ++
      (pr ("\n" ++ eq60) ++ pr "TOTAL: 1 SCA + 0 SIA = 1 policies" ++ pr eq60) :=
  ⟨report_wire_order.1
      [("hits", .arr [.obj [("name", .str "first")], .obj [("name", .str "second")]])]
      [.obj [("name", .str "first")], .obj [("name", .str "second")]]
      ["\n  Name:        first\n  Description: None\n  Status:      Inactive\n  Policy ID:   None\n",
       "\n  Name:        second\n  Description: None\n  Status:      Inactive\n  Policy ID:   None\n"]
      rfl (List.Forall₂.cons rfl (List.Forall₂.cons rfl List.Forall₂.nil)),
   report_wire_order.2.2 envEx (wEx "TOK") secretEx (.str "TOK") (.str "corp")
      scaBodyEx siaBodyEx
      (pr ("\n" ++ eq60) ++ pr "SCA POLICIES (sca.cyberark.cloud)" ++ pr eq60 ++
        "\n  Name:        A\n  Description: d\n  Status:      Active\n  Policy ID:   p1\n")
      (pr ("\n" ++ eq60) ++ pr "SIA POLICIES (uap.cyberark.cloud)" ++ pr eq60 ++ "")
      (pr ("\n" ++ eq60) ++ pr "TOTAL: 1 SCA + 0 SIA = 1 policies" ++ pr eq60)
      (by decide) rfl rfl rfl rfl rfl rfl rfl rfl⟩

/-- C9: two runs over the same environment, the same stored secret, and
remote policy data that depends only on the URL produce byte-identical
stdout, even when the two token exchanges hand out different bearer tokens
(`t1` and `t2` are unconstrained); the token value never reaches the
output. -/
theorem report_independent_of_token (env : Env) (w1 w2 : World)
    (g : String → HttpResponse) (secret t1 t2 : Json)
    (hsec1 : w1.getSecretValue (REGION env) ((SECRET_NAME env).getD "") = .ok secret)
    (hsec2 : w2.getSecretValue (REGION env) ((SECRET_NAME env).getD "") = .ok secret)
    (ht1 : (get_token w1 secret).2 = .ok t1)
    (ht2 : (get_token w2 secret).2 = .ok t2)
    (hg1 : ∀ u h, w1.httpGet u h = g u)
    (hg2 : ∀ u h, w2.httpGet u h = g u) :
    (main env w1).output = (main env w2).output := by
  by_cases hname : (SECRET_NAME env).getD "" = ""
  · simp [main, hname]
  · rcases hgt1 : get_token w1 secret with ⟨ct1, rt1⟩
    rw [hgt1] at ht1
    simp only at ht1
    subst ht1
    rcases hgt2 : get_token w2 secret with ⟨ct2, rt2⟩
    rw [hgt2] at ht2
    simp only at ht2
    subst ht2
    simp only [main, hname, if_neg, get_secret, hsec1, hsec2, hgt1, hgt2,
      get_sca_policies, get_sia_policies, hg1, hg2]
    cases hsub : jIndex secret "subdomain" with
    | none => rfl
    | some sub =>
      cases hs1 : is_http_error
          (g ("https://" ++ pyFmt sub ++ ".sca.cyberark.cloud/api/policies")).status with
      | true => simp [hs1]
      | false =>
        cases hs2 : is_http_error
            (g ("https://" ++ pyFmt sub ++ ".uap.cyberark.cloud/api/policies")).status with
        | true => simp [hs1, hs2]
        | false =>
          simp only [hs1, hs2, Bool.false_eq_true, if_false]
          cases display_sca_policies
              (g ("https://" ++ pyFmt sub ++ ".sca.cyberark.cloud/api/policies")).body with
          | none => rfl
          | some dsca =>
            cases display_sia_policies
                (g ("https://" ++ pyFmt sub ++ ".uap.cyberark.cloud/api/policies")).body with
            | none => rfl
            | some dsia =>
              cases summary_section
                  (g ("https://" ++ pyFmt sub ++ ".sca.cyberark.cloud/api/policies")).body
                  (g ("https://" ++ pyFmt sub ++ ".uap.cyberark.cloud/api/policies")).body with
              | error e => rfl
              | ok t => rfl

/-- C9 witness: two healthy worlds that differ only in the bearer token
they hand out print the same report. -/
theorem report_independent_of_token_witness :
    (main envEx (wEx "tokA")).output = (main envEx (wEx "tokB")).output :=
  report_independent_of_token envEx (wEx "tokA") (wEx "tokB") gEx secretEx
    (.str "tokA") (.str "tokB") rfl rfl rfl rfl (fun _ _ => rfl) (fun _ _ => rfl)

end CyberArk
